import Mathlib

/-!
Shallow embedding of the PatentProfiler API server (src/server.js).

The repository is a single JavaScript file holding three drafts of the same
Express server; the first section (the operative "Final Clean Version",
lines 1-163) defines safeFetch and the three routes /api/ipdata,
/api/ipdata/byCustomer and /api/ipdata/full.  JavaScript values flowing
through the handlers are modelled by the inductive `Js`; absence of a field
(JavaScript undefined) is modelled by `Option`.  Upstream HTTP calls are
modelled by an environment `Env` mapping each URL to a `FetchOutcome`;
Math.random() draws are passed in as explicit rational arguments in [0,1).
-/

namespace PatentProfiler

/-- A JavaScript value as it appears in parsed JSON bodies and response
bodies.  Numbers are modelled as rationals (exact for every value the
server computes). -/
inductive Js where
  | null
  | bool (b : Bool)
  | num (q : ℚ)
  | str (s : String)
  | arr (elems : List Js)
  | obj (fields : List (String × Js))

/-- First binding of a key in an object field list, as JavaScript property
lookup on a plain object. -/
def lookupField : List (String × Js) → String → Option Js
  | [], _ => none
  | (k, v) :: rest, f => if k = f then some v else lookupField rest f

/-- Property access j.f : undefined (none) unless j is an object with the
field. -/
def getField (j : Js) (f : String) : Option Js :=
  match j with
  | .obj fields => lookupField fields f
  | _ => none

/-- Optional chaining j?.f : undefined when the receiver is undefined or
null, otherwise property access. -/
def optChainField (j : Option Js) (f : String) : Option Js :=
  match j with
  | none => none
  | some .null => none
  | some v => getField v f

/-- JavaScript truthiness of a value (undefined is handled by callers via
Option). -/
def truthy : Js → Bool
  | .null => false
  | .bool b => b
  | .num q => q ≠ 0
  | .str s => s ≠ ""
  | .arr _ => true
  | .obj _ => true

/-- The .length property: defined for arrays and strings, undefined
otherwise. -/
def jsLength : Js → Option ℕ
  | .arr xs => some xs.length
  | .str s => some s.length
  | _ => none

/-- The counting idiom of the handlers:
(json?.field || []).length || 0.  A falsy or absent field is replaced by
the empty array; a value without .length contributes 0. -/
def countField (json : Option Js) (field : String) : ℕ :=
  let v := optChainField json field
  let base : Js :=
    match v with
    | some w => if truthy w then w else Js.arr []
    | none => Js.arr []
  match jsLength base with
  | some n => n
  | none => 0

/-- Whitespace for the JavaScript String.prototype.trim: space, tab,
newline, carriage return, vertical tab, form feed. -/
def jsWhitespace (c : Char) : Bool :=
  c = ' ' || c = '\t' || c = '\n' || c = '\r' || c = '\x0b' || c = '\x0c'

/-- The .trim() of JavaScript strings: leading and trailing whitespace
removed. -/
def jsTrim (s : String) : String :=
  ⟨(((s.data.dropWhile jsWhitespace).reverse.dropWhile jsWhitespace).reverse)⟩

/-- Outcome of one await fetch(url) / await response.json() round trip:
the fetch itself may throw, and on a response the body parse may throw. -/
inductive FetchOutcome where
  | fetchError (msg : String)
  | response (ok : Bool) (body : Except String Js)

/-- Assignment of upstream responses: what each URL returns during the
request. -/
def Env := String → FetchOutcome

/-- Result record of safeFetch in the operative draft (src/server.js
lines 27-36): on success \x7b ok, json \x7d, on any thrown error
\x7b ok: false, error \x7d with no json property. -/
structure SafeFetchResult where
  ok : Bool
  json : Option Js
  error : Option String

/-- safeFetch (src/server.js lines 27-36): returns ok and the parsed json,
or catches any error (network or body parse) and returns ok: false with no
json. -/
def safeFetch : FetchOutcome → SafeFetchResult
  | .fetchError msg => ⟨false, none, some msg⟩
  | .response _ (.error msg) => ⟨false, none, some msg⟩
  | .response ok (.ok j) => ⟨ok, some j, none⟩

/-- PatentsView query URL (src/server.js line 45): the trimmed assignee is
interpolated into the URL template as-is, with no URL encoding. -/
def patentsViewURL (assignee : String) : String :=
  "https://api.patentsview.org/patents/query?q=\x7b\"assignee_organization\":\"" ++
    assignee ++ "\"\x7d&f=[\"patent_number\"]"

/-- Trademark search URL (src/server.js line 46): the trimmed assignee is
appended as-is, with no URL encoding. -/
def trademarkURL (assignee : String) : String :=
  "https://developer.uspto.gov/trademark/v1/trademark/search?searchText=owner:" ++
    assignee

/-- An HTTP response from a handler: res.status(400).json(body) or
res.json(body) (status 200). -/
inductive Response where
  | badRequest (body : Js)
  | ok (body : Js)

/-- The /api/ipdata handler (src/server.js lines 41-62).  The assignee
query parameter is modelled as Option String (none when absent). -/
def ipdataHandler (env : Env) (assigneeParam : Option String) : Response :=
  let assignee := jsTrim (assigneeParam.getD "")
  if assignee = "" then
    .badRequest (.obj [("error", .str "Missing ?assignee=")])
  else
    let pvURL := patentsViewURL assignee
    let tmURL := trademarkURL assignee
    let patentsRes := safeFetch (env pvURL)
    let trademarksRes := safeFetch (env tmURL)
    let patents := countField patentsRes.json "patents"
    let trademarks := countField trademarksRes.json "results"
    .ok (.obj
      [("assignee", .str assignee),
       ("patents", .num patents),
       ("trademarks", .num trademarks),
       ("debug", .obj
         [("patentsViewURL", .str pvURL),
          ("trademarkURL", .str tmURL)])])

/-- Body of a 200 response; none for a 400 response. -/
def okBody : Response → Option Js
  | .ok b => some b
  | .badRequest _ => none

/-- Whether the handler answered with res.status(400). -/
def isBadRequest : Response → Bool
  | .badRequest _ => true
  | .ok _ => false

/-- Top-level field names of a 200 response body (empty for 400 or a
non-object body). -/
def bodyFields (r : Response) : List String :=
  match okBody r with
  | some (.obj fields) => fields.map Prod.fst
  | _ => []

/-- Numeric top-level field of a 200 response body. -/
def bodyNum (r : Response) (f : String) : Option ℚ :=
  match okBody r with
  | some b =>
    match getField b f with
    | some (.num q) => some q
    | _ => none
  | none => none

/-- The /api/ipdata/byCustomer handler (src/server.js lines 67-86).  The
four Math.random() draws are passed in as rationals r1..r4, each in
[0,1). -/
def byCustomerHandler (numberParam : Option String) (r1 r2 r3 r4 : ℚ) : Response :=
  let custNum := jsTrim (numberParam.getD "")
  if custNum = "" then
    .badRequest (.obj [("error", .str "Missing ?number=")])
  else
    let pendingApps := (⌊r1 * 4⌋).toNat + 1
    let provisionals := (⌊r2 * 3⌋).toNat
    let pctApps := (⌊r3 * 2⌋).toNat
    let foreignNational := (⌊r4 * 3⌋).toNat
    .ok (.obj
      [("customerNumber", .str custNum),
       ("pendingApps", .num pendingApps),
       ("provisionals", .num provisionals),
       ("pctApps", .num pctApps),
       ("foreignNational", .num foreignNational),
       ("totalApps", .num (pendingApps + provisionals + pctApps + foreignNational)),
       ("note", .str "Simulated public data (private USPTO data not accessible)")])

/-- PatentsView query URL of the /api/ipdata/full handler (src/server.js
line 100): raw interpolation, wider field list and a page-size option. -/
def fullPatentsViewURL (assignee : String) : String :=
  "https://api.patentsview.org/patents/query?q=\x7b\"assignee_organization\":\"" ++
    assignee ++
    "\"\x7d&f=[\"patent_number\",\"patent_title\",\"assignee_organization\"]&o=\x7b\"per_page\":1000\x7d"

/-- Patent Center URL of the /api/ipdata/full handler (src/server.js
line 102): built but never fetched, only echoed in debug. -/
def patentCenterURL (custNum : String) : String :=
  "https://patentcenter.uspto.gov/partner/applications?customerNumber=" ++ custNum

/-- The /api/ipdata/full handler (src/server.js lines 91-156).  The four
Math.random() draws are passed in as rationals r1..r4, each in [0,1). -/
def fullHandler (env : Env) (assigneeParam numberParam : Option String)
    (r1 r2 r3 r4 : ℚ) : Response :=
  let assignee := jsTrim (assigneeParam.getD "")
  let custNum := jsTrim (numberParam.getD "")
  if assignee = "" ∨ custNum = "" then
    .badRequest (.obj [("error", .str "Missing assignee or customer number")])
  else
    let pvURL := fullPatentsViewURL assignee
    let tmURL := trademarkURL assignee
    let pcURL := patentCenterURL custNum
    let patentsRes := safeFetch (env pvURL)
    let trademarksRes := safeFetch (env tmURL)
    let patents := countField patentsRes.json "patents"
    let trademarks := countField trademarksRes.json "results"
    let pendingApps := (⌊r1 * 4⌋).toNat + 1
    let provisionals := (⌊r2 * 2⌋).toNat + 1
    let pctApps := (⌊r3 * 2⌋).toNat
    let foreignNational := (⌊r4 * 3⌋).toNat
    let ipStrengthScore : ℚ :=
      patents * 4 + pendingApps * 2 + pctApps * (5 / 2) +
        foreignNational * (5 / 2) + provisionals * (3 / 2) + trademarks * 2
    let estPortfolioValue : ℚ :=
      10000 + patents * 60000 + pendingApps * 30000 + pctApps * 40000 +
        foreignNational * 50000 + trademarks * 20000 + provisionals * 8000
    .ok (.obj
      [("assignee", .str assignee),
       ("customerNumber", .str custNum),
       ("summary", .obj
         [("patents", .num patents),
          ("trademarks", .num trademarks),
          ("pendingApps", .num pendingApps),
          ("provisionals", .num provisionals),
          ("pctApps", .num pctApps),
          ("foreignNational", .num foreignNational),
          ("ipStrengthScore", .num ipStrengthScore),
          ("estPortfolioValue", .num estPortfolioValue)]),
       ("debug", .obj
         [("patentsView", .str pvURL),
          ("trademark", .str tmURL),
          ("patentCenter", .str pcURL)])])

/-- Numeric field inside the summary object of a /api/ipdata/full 200
response. -/
def summaryNum (r : Response) (f : String) : Option ℚ :=
  match okBody r with
  | some b =>
    match getField b "summary" with
    | some s =>
      match getField s f with
      | some (.num q) => some q
      | _ => none
    | none => none
  | none => none

/-!
Model of the JavaScript builtin encodeURIComponent, used by the second
draft of the server (src/server.js line 190) and by the spec's demand
that candidates be URL-encoded.  Bytes of the UTF-8 encoding are kept
verbatim when in the unescaped set (letters, digits, - _ . ! ~ * plus
apostrophe and parentheses) and percent-encoded otherwise.
-/

/-- UTF-8 bytes of a character, as byte values. -/
def utf8Bytes (c : Char) : List ℕ :=
  let n := c.toNat
  if n < 128 then [n]
  else if n < 2048 then [192 + n / 64, 128 + n % 64]
  else if n < 65536 then [224 + n / 4096, 128 + (n / 64) % 64, 128 + n % 64]
  else [240 + n / 262144, 128 + (n / 4096) % 64, 128 + (n / 64) % 64, 128 + n % 64]

/-- Whether a byte is in the unescaped set of encodeURIComponent:
A-Z a-z 0-9 - _ . ! ~ * apostrophe ( ). -/
def uriUnescaped (n : ℕ) : Bool :=
  (65 ≤ n && n ≤ 90) || (97 ≤ n && n ≤ 122) || (48 ≤ n && n ≤ 57) ||
    n = 45 || n = 95 || n = 46 || n = 33 || n = 126 || n = 42 ||
    n = 39 || n = 40 || n = 41

/-- Upper-case hexadecimal digit for a value below 16. -/
def hexChar (n : ℕ) : Char :=
  if n < 10 then Char.ofNat (48 + n) else Char.ofNat (55 + n)

/-- Output characters for one byte: the character itself when unescaped,
otherwise a percent escape. -/
def encodeByteChars (n : ℕ) : List Char :=
  if uriUnescaped n then [Char.ofNat n]
  else ['%', hexChar (n / 16), hexChar (n % 16)]

/-- encodeURIComponent of a string: each character's UTF-8 bytes encoded
in order. -/
def encodeURIComponent (s : String) : String :=
  ⟨s.data.flatMap fun c => (utf8Bytes c).flatMap encodeByteChars⟩

/-- Modelled from the spec: the PatentsView URL as section 4.2 demands it,
with the candidate URL-encoded before interpolation.  The repository's
operative handler does not do this; this definition exists to compare the
code's URL builder against the spec's requirement. -/
def specPatentsViewURL (assignee : String) : String :=
  "https://api.patentsview.org/patents/query?q=\x7b\"assignee_organization\":\"" ++
    encodeURIComponent assignee ++ "\"\x7d&f=[\"patent_number\"]"

/-- PatentsView query URL of the second draft (src/server.js line 192),
which interpolates the encodeURIComponent-encoded assignee. -/
def patentsViewURL2 (assignee : String) : String :=
  "https://api.patentsview.org/patents/query?q=\x7b\"assignee_organization\":\"" ++
    encodeURIComponent assignee ++ "\"\x7d&f=[\"patent_number\"]"

/-- A string all of whose characters are single-byte and in the unescaped
set of encodeURIComponent. -/
def allUnescaped (s : String) : Bool :=
  s.data.all fun c => c.toNat < 128 && uriUnescaped c.toNat

/-- Candidate names the /api/ipdata handler queries (src/server.js
lines 42-46): both source URLs are built from the single trimmed
assignee.  The handler reads no tryVariants parameter and performs no
variation expansion, so the flag is ignored and the sequence is always
the one-element list holding the trimmed base name. -/
def candidates (baseName : String) (_tryVariants : Bool) : List String :=
  [jsTrim baseName]

/-- Environment in which every fetch throws a network error: safeFetch
yields ok false with no parsed body for every URL. -/
def envAllFail : Env := fun _ => .fetchError "network down"

/-- Environment in which every fetch returns HTTP 200 with an empty JSON
object: every safeFetch succeeds with no recognised list field. -/
def envAllOkEmpty : Env := fun _ => .response true (.ok (.obj []))

/-- Environment realising the spec's dedup scenario: PatentsView returns
identifiers A1, A2 for the name Acme and A2, A3 for the name Acme LLC;
every other URL fails. -/
def envAcmeVariants : Env := fun url =>
  if url = patentsViewURL "Acme" then
    .response true (.ok (.obj [("patents", .arr [.str "A1", .str "A2"])]))
  else if url = patentsViewURL "Acme LLC" then
    .response true (.ok (.obj [("patents", .arr [.str "A2", .str "A3"])]))
  else .fetchError "unavailable"

/-- A trademark response body whose document list sits under
response.docs, one of the alternative envelope shapes the spec says
adapters must probe, with no results field. -/
def docsBody : Js :=
  .obj [("response", .obj [("docs", .arr [.obj [], .obj []])])]

/-- Environment in which the trademark source answers with the
response.docs envelope and every other URL returns an empty object. -/
def envDocsShape : Env := fun url =>
  if url = trademarkURL "Acme" then .response true (.ok docsBody)
  else .response true (.ok (.obj []))

/-- Modelled from the spec: section 4.2's envelope probing — try the
field paths results, response.docs, applications and data in priority
order and take the first present array field as the item list; when none
is present the batch is empty.  Defined to compare the code's single
fixed field read against the spec's requirement. -/
def specProbeItems (j : Js) : List Js :=
  match getField j "results" with
  | some (.arr xs) => xs
  | _ =>
    match optChainField (getField j "response") "docs" with
    | some (.arr xs) => xs
    | _ =>
      match getField j "applications" with
      | some (.arr xs) => xs
      | _ =>
        match getField j "data" with
        | some (.arr xs) => xs
        | _ => []

/-!
Helper lemmas shared by the claim theorems.
-/

/-- Optional chaining on a present value agrees with plain property
access (both give undefined on null). -/
theorem optChainField_some (j : Js) (f : String) :
    optChainField (some j) f = getField j f := by
  cases j <;> rfl

/-- Field list of the /api/ipdata 200 response for any non-empty trimmed
assignee. -/
theorem ipdataHandler_bodyFields (env : Env) (p : Option String)
    (hne : jsTrim (p.getD "") ≠ "") :
    bodyFields (ipdataHandler env p) = ["assignee", "patents", "trademarks", "debug"] := by
  unfold ipdataHandler
  simp [hne, bodyFields, okBody]

/-- A random draw in [0,1) scaled by n and floored lands strictly below
n. -/
theorem floor_rand_toNat_lt (r : ℚ) (n : ℕ) (hn : 0 < n) (h1 : r < 1) :
    (⌊r * (n:ℚ)⌋).toNat < n := by
  have hq : (0:ℚ) < n := by exact_mod_cast hn
  have : ⌊r * (n:ℚ)⌋ < (n:ℤ) := by
    apply Int.floor_lt.mpr
    push_cast
    nlinarith
  omega

/-- encodeURIComponent is the identity on strings made only of unescaped
single-byte characters. -/
theorem encodeURIComponent_eq_self (s : String) (h : allUnescaped s = true) :
    encodeURIComponent s = s := by
  obtain ⟨d⟩ := s
  unfold allUnescaped at h
  simp only [String.data] at h
  unfold encodeURIComponent
  simp only [String.data]
  congr 1
  induction d with
  | nil => rfl
  | cons c cs ih =>
    simp only [List.all_cons, Bool.and_eq_true] at h
    obtain ⟨⟨hc1, hun⟩, hrest⟩ := h
    have hsmall : c.toNat < 128 := by simpa using hc1
    have hbytes : utf8Bytes c = [c.toNat] := by
      unfold utf8Bytes
      simp [hsmall]
    have hchars : encodeByteChars c.toNat = [Char.ofNat c.toNat] := by
      unfold encodeByteChars
      simp [hun]
    simp [List.flatMap_cons, hbytes, hchars, Char.ofNat_toNat, ih hrest]

/-!
Claim theorems.
-/

/-- C1 (amended): when every upstream call fails for a non-empty trimmed
assignee, the /api/ipdata handler still answers 200 with patents and
trademarks both zero and never an unhandled error; the body carries no
per-failure trace entries. -/
theorem ipdata_all_fail_zero_counts (env : Env) (p : Option String)
    (hne : jsTrim (p.getD "") ≠ "")
    (hfail : ∀ url, (safeFetch (env url)).ok = false ∧ (safeFetch (env url)).json = none) :
    isBadRequest (ipdataHandler env p) = false ∧
    bodyNum (ipdataHandler env p) "patents" = some 0 ∧
    bodyNum (ipdataHandler env p) "trademarks" = some 0 := by
  have h1 := (hfail (patentsViewURL (jsTrim (p.getD "")))).2
  have h2 := (hfail (trademarkURL (jsTrim (p.getD "")))).2
  unfold ipdataHandler
  simp [hne, h1, h2, isBadRequest, bodyNum, okBody, getField, lookupField,
    countField, optChainField, jsLength]

/-- C1 witness: the amended theorem at the all-failing environment and
assignee Acme. -/
theorem ipdata_all_fail_zero_counts_witness :
    isBadRequest (ipdataHandler envAllFail (some "Acme")) = false ∧
    bodyNum (ipdataHandler envAllFail (some "Acme")) "patents" = some 0 ∧
    bodyNum (ipdataHandler envAllFail (some "Acme")) "trademarks" = some 0 :=
  ipdata_all_fail_zero_counts envAllFail (some "Acme") (by decide)
    (fun _ => ⟨rfl, rfl⟩)

/-- C1 counterexample: with assignee Acme, the response produced when both
fetches throw is identical to the response produced when both fetches
succeed with empty bodies, so the response cannot contain one failure
entry per (candidate, source) pair as the claim states. -/
theorem ipdata_all_fail_trace_counterexample :
    (safeFetch (envAllFail (patentsViewURL "Acme"))).ok = false ∧
    (safeFetch (envAllFail (trademarkURL "Acme"))).ok = false ∧
    (safeFetch (envAllOkEmpty (patentsViewURL "Acme"))).ok = true ∧
    (safeFetch (envAllOkEmpty (trademarkURL "Acme"))).ok = true ∧
    ipdataHandler envAllFail (some "Acme") = ipdataHandler envAllOkEmpty (some "Acme") :=
  ⟨rfl, rfl, rfl, rfl, rfl⟩

/-- C2: the /api/ipdata call answers 400 exactly when the assignee query
parameter is missing or empty after trimming; for every other input the
handler returns a 200 response whatever the upstream outcomes. -/
theorem ipdata_validation_iff (env : Env) (p : Option String) :
    isBadRequest (ipdataHandler env p) = true ↔ jsTrim (p.getD "") = "" := by
  unfold ipdataHandler
  by_cases h : jsTrim (p.getD "") = "" <;> simp [h, isBadRequest]

/-- C3 counterexample: in the spec scenario (PatentsView holds A1, A2 for
Acme and A2, A3 for Acme LLC) the handler reports patents = 2, not the
deduplicated cross-variant count 3, because only the single candidate
Acme is ever queried and no dedup is performed. -/
theorem patents_dedup_scenario_counterexample :
    bodyNum (ipdataHandler envAcmeVariants (some "Acme")) "patents" = some 2 ∧
    bodyNum (ipdataHandler envAcmeVariants (some "Acme")) "patents" ≠ some 3 :=
  ⟨by decide, by decide⟩

/-- C3 (amended): the final patent count equals the raw length of the
patents array returned by the single PatentsView call for the trimmed
assignee; no other name variation contributes and duplicates inside that
array are not removed. -/
theorem patents_count_single_call (env : Env) (p : Option String) (xs : List Js)
    (hne : jsTrim (p.getD "") ≠ "")
    (hp : (safeFetch (env (patentsViewURL (jsTrim (p.getD ""))))).json =
      some (.obj [("patents", .arr xs)])) :
    bodyNum (ipdataHandler env p) "patents" = some xs.length := by
  unfold ipdataHandler
  simp [hne, hp, bodyNum, okBody, getField, lookupField, countField,
    optChainField, truthy, jsLength]

/-- C3 witness: the amended theorem at the scenario environment, where the
Acme call returns the two identifiers A1 and A2. -/
theorem patents_count_single_call_witness :
    bodyNum (ipdataHandler envAcmeVariants (some "Acme")) "patents" =
      some (([Js.str "A1", Js.str "A2"] : List Js).length) :=
  patents_count_single_call envAcmeVariants (some "Acme")
    [Js.str "A1", Js.str "A2"] (by decide) rfl

/-- C4: for a trimmed non-empty base name the candidate sequence starts
with the trimmed base name and has no duplicates when tryVariants is
true, and is exactly the singleton base name when tryVariants is false
(the handler ignores the flag and always queries the one trimmed
assignee). -/
theorem candidates_base_first_nodup (b : String)
    (hb : jsTrim b = b) (hne : b ≠ "") :
    (candidates b true).head? = some (jsTrim b) ∧
    (candidates b true).Nodup ∧
    candidates b false = [b] := by
  refine ⟨rfl, List.nodup_singleton _, ?_⟩
  simp [candidates, hb]

/-- C4 witness: the candidate property at the base name Acme. -/
theorem candidates_base_first_nodup_witness :
    (candidates "Acme" true).head? = some (jsTrim "Acme") ∧
    (candidates "Acme" true).Nodup ∧
    candidates "Acme" false = ["Acme"] :=
  candidates_base_first_nodup "Acme" (by decide) (by decide)

/-- C5 counterexample: the /api/ipdata 200 response body does not have
the field list the claim names (assigneeQueried, triedAssignees, patents,
pendingApps, pctApps, foreignNational, provisionals, trademarks,
debug). -/
theorem ipdata_fields_counterexample :
    bodyFields (ipdataHandler envAllOkEmpty (some "Acme")) ≠
      ["assigneeQueried", "triedAssignees", "patents", "pendingApps", "pctApps",
       "foreignNational", "provisionals", "trademarks", "debug"] := by
  decide

/-- C5 (amended): every successful /api/ipdata response body is a JSON
object with exactly the fields assignee, patents, trademarks and
debug. -/
theorem ipdata_response_fields (env : Env) (p : Option String)
    (hne : jsTrim (p.getD "") ≠ "") :
    bodyFields (ipdataHandler env p) = ["assignee", "patents", "trademarks", "debug"] :=
  ipdataHandler_bodyFields env p hne

/-- C5 witness: the amended field list at a concrete request. -/
theorem ipdata_response_fields_witness :
    bodyFields (ipdataHandler envAllOkEmpty (some "Acme")) =
      ["assignee", "patents", "trademarks", "debug"] :=
  ipdata_response_fields envAllOkEmpty (some "Acme") (by decide)

/-- C6 counterexample: when the trademark source answers with its document
list under response.docs (one of the envelope shapes the claim says must
be probed) and no results field, the spec-side probe finds 2 items but
the handler counts 0, because it reads the single fixed path results; the
response is still a 200 success. -/
theorem envelope_probe_counterexample :
    (specProbeItems docsBody).length = 2 ∧
    bodyNum (ipdataHandler envDocsShape (some "Acme")) "trademarks" = some 0 ∧
    isBadRequest (ipdataHandler envDocsShape (some "Acme")) = false :=
  ⟨by decide, by decide, by decide⟩

/-- C6 (amended): each adapter reads exactly one fixed field path
(patents for PatentsView, results for Trademarks); when the parsed body
lacks that field the count is zero and the response remains a 200
success, an empty batch rather than a failure. -/
theorem missing_field_is_empty_success (env : Env) (p : Option String) (j : Js)
    (hne : jsTrim (p.getD "") ≠ "")
    (htm : (safeFetch (env (trademarkURL (jsTrim (p.getD ""))))).json = some j)
    (hnores : getField j "results" = none) :
    bodyNum (ipdataHandler env p) "trademarks" = some 0 ∧
    isBadRequest (ipdataHandler env p) = false := by
  have hop : optChainField (some j) "results" = none := by
    rw [optChainField_some, hnores]
  unfold ipdataHandler
  simp [hne, htm, hop, bodyNum, okBody, getField, lookupField, countField,
    jsLength, isBadRequest]

/-- C6 witness: the amended theorem at the response.docs-shaped
environment. -/
theorem missing_field_is_empty_success_witness :
    bodyNum (ipdataHandler envDocsShape (some "Acme")) "trademarks" = some 0 ∧
    isBadRequest (ipdataHandler envDocsShape (some "Acme")) = false :=
  missing_field_is_empty_success envDocsShape (some "Acme") docsBody
    (by decide) rfl rfl

/-- C7 counterexample: with no upstream signal at all (every fetch fails)
and random draws 1/2 and 2/3, the /api/ipdata/full summary reports
pctApps = 1 and foreignNational = 2, so these counts are not exactly zero
as the claim states. -/
theorem pct_foreign_nonzero_counterexample :
    summaryNum (fullHandler envAllFail (some "Acme") (some "12345") 0 0 (1/2) (2/3))
      "pctApps" ≠ some 0 ∧
    summaryNum (fullHandler envAllFail (some "Acme") (some "12345") 0 0 (1/2) (2/3))
      "foreignNational" ≠ some 0 := by
  have h3 : (⌊(1:ℚ)/2 * 2⌋ : ℤ) = 1 := by norm_num
  have h4 : (⌊(2:ℚ)/3 * 3⌋ : ℤ) = 2 := by norm_num
  unfold fullHandler
  simp [h3, h4, summaryNum, okBody, getField, lookupField, jsTrim, jsWhitespace]

/-- C7 (amended): the pctApps and foreignNational counts of
/api/ipdata/full are synthetic random placeholders bounded by 1 and 2
respectively (not fixed zeros), and the /api/ipdata response omits both
fields entirely. -/
theorem pct_foreign_synthetic_bounds (env : Env) (p c : Option String)
    (r1 r2 r3 r4 : ℚ)
    (hp : jsTrim (p.getD "") ≠ "") (hc : jsTrim (c.getD "") ≠ "")
    (h3 : 0 ≤ r3 ∧ r3 < 1) (h4 : 0 ≤ r4 ∧ r4 < 1) :
    ∃ pc fn : ℕ,
      summaryNum (fullHandler env p c r1 r2 r3 r4) "pctApps" = some pc ∧
      summaryNum (fullHandler env p c r1 r2 r3 r4) "foreignNational" = some fn ∧
      pc ≤ 1 ∧ fn ≤ 2 ∧
      "pctApps" ∉ bodyFields (ipdataHandler env p) ∧
      "foreignNational" ∉ bodyFields (ipdataHandler env p) := by
  refine ⟨(⌊r3 * 2⌋).toNat, (⌊r4 * 3⌋).toNat, ?_, ?_, ?_, ?_, ?_, ?_⟩
  · unfold fullHandler
    simp [hp, hc, summaryNum, okBody, getField, lookupField]
  · unfold fullHandler
    simp [hp, hc, summaryNum, okBody, getField, lookupField]
  · have := floor_rand_toNat_lt r3 2 (by norm_num) h3.2
    simp only [Nat.cast_ofNat] at this
    omega
  · have := floor_rand_toNat_lt r4 3 (by norm_num) h4.2
    simp only [Nat.cast_ofNat] at this
    omega
  · rw [ipdataHandler_bodyFields env p hp]
    decide
  · rw [ipdataHandler_bodyFields env p hp]
    decide

/-- C7 witness: the amended theorem at zero random draws and failing
upstreams. -/
theorem pct_foreign_synthetic_bounds_witness :
    ∃ pc fn : ℕ,
      summaryNum (fullHandler envAllFail (some "Acme") (some "12345") 0 0 0 0)
        "pctApps" = some pc ∧
      summaryNum (fullHandler envAllFail (some "Acme") (some "12345") 0 0 0 0)
        "foreignNational" = some fn ∧
      pc ≤ 1 ∧ fn ≤ 2 ∧
      "pctApps" ∉ bodyFields (ipdataHandler envAllFail (some "Acme")) ∧
      "foreignNational" ∉ bodyFields (ipdataHandler envAllFail (some "Acme")) :=
  pct_foreign_synthetic_bounds envAllFail (some "Acme") (some "12345") 0 0 0 0
    (by decide) (by decide) (by norm_num) (by norm_num)

/-- C8 counterexample: two runs of /api/ipdata/full with identical inputs
(the same upstream environment, assignee and customer number) report
different pendingApps counts when the internal Math.random draws differ
(0 versus 1/2), so counts in the response are not identical across two
calls with identical inputs as the claim states. -/
theorem full_counts_random_counterexample :
    summaryNum (fullHandler envAllFail (some "Acme") (some "12345") 0 0 0 0)
      "pendingApps" ≠
    summaryNum (fullHandler envAllFail (some "Acme") (some "12345") (1/2) 0 0 0)
      "pendingApps" := by
  have ha : (⌊(0:ℚ) * 4⌋ : ℤ) = 0 := by norm_num
  have hb : (⌊(2:ℚ)⁻¹ * 4⌋ : ℤ) = 2 := by norm_num
  unfold fullHandler
  simp [ha, hb, summaryNum, okBody, getField, lookupField, jsTrim, jsWhitespace]

/-- C8 (amended): with a fixed assignment of upstream responses, two runs
of the /api/ipdata handler on the same input are identical, and the
upstream-derived counts (patents, trademarks) of /api/ipdata/full agree
across two runs even when the random draws differ; the synthetic
placeholder counts of /api/ipdata/full are excluded, since they follow
the per-call Math.random draws. -/
theorem aggregate_counts_deterministic (env : Env) (p c : Option String)
    (r1 r2 r3 r4 s1 s2 s3 s4 : ℚ) :
    ipdataHandler env p = ipdataHandler env p ∧
    summaryNum (fullHandler env p c r1 r2 r3 r4) "patents" =
      summaryNum (fullHandler env p c s1 s2 s3 s4) "patents" ∧
    summaryNum (fullHandler env p c r1 r2 r3 r4) "trademarks" =
      summaryNum (fullHandler env p c s1 s2 s3 s4) "trademarks" := by
  refine ⟨rfl, ?_, ?_⟩ <;>
    · unfold fullHandler
      by_cases h : jsTrim (p.getD "") = "" ∨ jsTrim (c.getD "") = "" <;>
        simp [h, summaryNum, okBody, getField, lookupField]

/-- C9 counterexample: the operative /api/ipdata handler interpolates the
candidate into the PatentsView URL without URL-encoding, so for the
candidate Acme & Co the built URL differs from the URL built from the
encoded candidate (which would contain Acme%20%26%20Co). -/
theorem url_encoding_counterexample :
    encodeURIComponent "Acme & Co" = "Acme%20%26%20Co" ∧
    patentsViewURL "Acme & Co" ≠ specPatentsViewURL "Acme & Co" ∧
    trademarkURL "Acme & Co" =
      "https://developer.uspto.gov/trademark/v1/trademark/search?searchText=owner:Acme & Co" :=
  ⟨by decide, by decide, rfl⟩

/-- C9 (amended): the operative handler builds its URLs by raw
interpolation, agreeing with the URL-encoded form demanded by the spec
only when every candidate character is already unescaped, while the
superseded second draft does encode the candidate with
encodeURIComponent. -/
theorem url_raw_vs_encoded (a : String) (h : allUnescaped a = true) :
    patentsViewURL a = specPatentsViewURL a ∧
    patentsViewURL2 a = specPatentsViewURL a := by
  have he : encodeURIComponent a = a := encodeURIComponent_eq_self a h
  exact ⟨by rw [specPatentsViewURL, he, patentsViewURL], rfl⟩

/-- C9 witness: the amended theorem at the all-unescaped candidate
Acme. -/
theorem url_raw_vs_encoded_witness :
    patentsViewURL "Acme" = specPatentsViewURL "Acme" ∧
    patentsViewURL2 "Acme" = specPatentsViewURL "Acme" :=
  url_raw_vs_encoded "Acme" (by decide)

/-- C10: for every non-empty trimmed customer number and random draws in
[0,1), the /api/ipdata/byCustomer response satisfies
totalApps = pendingApps + provisionals + pctApps + foreignNational with
1 ≤ pendingApps ≤ 4, provisionals ≤ 2, pctApps ≤ 1, foreignNational ≤ 2,
hence 1 ≤ totalApps ≤ 9. -/
theorem byCustomer_total_and_bounds (p : Option String) (r1 r2 r3 r4 : ℚ)
    (hp : jsTrim (p.getD "") ≠ "")
    (h1 : 0 ≤ r1 ∧ r1 < 1) (h2 : 0 ≤ r2 ∧ r2 < 1)
    (h3 : 0 ≤ r3 ∧ r3 < 1) (h4 : 0 ≤ r4 ∧ r4 < 1) :
    ∃ pa pv pc fn : ℕ,
      bodyNum (byCustomerHandler p r1 r2 r3 r4) "pendingApps" = some pa ∧
      bodyNum (byCustomerHandler p r1 r2 r3 r4) "provisionals" = some pv ∧
      bodyNum (byCustomerHandler p r1 r2 r3 r4) "pctApps" = some pc ∧
      bodyNum (byCustomerHandler p r1 r2 r3 r4) "foreignNational" = some fn ∧
      bodyNum (byCustomerHandler p r1 r2 r3 r4) "totalApps" =
        some ((pa + pv + pc + fn : ℕ)) ∧
      1 ≤ pa ∧ pa ≤ 4 ∧ pv ≤ 2 ∧ pc ≤ 1 ∧ fn ≤ 2 ∧
      1 ≤ pa + pv + pc + fn ∧ pa + pv + pc + fn ≤ 9 := by
  refine ⟨(⌊r1 * 4⌋).toNat + 1, (⌊r2 * 3⌋).toNat, (⌊r3 * 2⌋).toNat,
    (⌊r4 * 3⌋).toNat, ?_, ?_, ?_, ?_, ?_, ?_⟩
  · unfold byCustomerHandler
    simp [hp, bodyNum, okBody, getField, lookupField]
  · unfold byCustomerHandler
    simp [hp, bodyNum, okBody, getField, lookupField]
  · unfold byCustomerHandler
    simp [hp, bodyNum, okBody, getField, lookupField]
  · unfold byCustomerHandler
    simp [hp, bodyNum, okBody, getField, lookupField]
  · unfold byCustomerHandler
    simp [hp, bodyNum, okBody, getField, lookupField]
  · have b1 := floor_rand_toNat_lt r1 4 (by norm_num) h1.2
    have b2 := floor_rand_toNat_lt r2 3 (by norm_num) h2.2
    have b3 := floor_rand_toNat_lt r3 2 (by norm_num) h3.2
    have b4 := floor_rand_toNat_lt r4 3 (by norm_num) h4.2
    simp only [Nat.cast_ofNat] at b1 b2 b3 b4
    omega

/-- C10 witness: the bounds at customer number 123 and zero random
draws. -/
theorem byCustomer_total_and_bounds_witness :
    ∃ pa pv pc fn : ℕ,
      bodyNum (byCustomerHandler (some "123") 0 0 0 0) "pendingApps" = some pa ∧
      bodyNum (byCustomerHandler (some "123") 0 0 0 0) "provisionals" = some pv ∧
      bodyNum (byCustomerHandler (some "123") 0 0 0 0) "pctApps" = some pc ∧
      bodyNum (byCustomerHandler (some "123") 0 0 0 0) "foreignNational" = some fn ∧
      bodyNum (byCustomerHandler (some "123") 0 0 0 0) "totalApps" =
        some ((pa + pv + pc + fn : ℕ)) ∧
      1 ≤ pa ∧ pa ≤ 4 ∧ pv ≤ 2 ∧ pc ≤ 1 ∧ fn ≤ 2 ∧
      1 ≤ pa + pv + pc + fn ∧ pa + pv + pc + fn ≤ 9 :=
  byCustomer_total_and_bounds (some "123") 0 0 0 0 (by decide)
    (by norm_num) (by norm_num) (by norm_num) (by norm_num)

end PatentProfiler
